import Mathlib

/-!
# Verification of the phone2geo resolution engine

A shallow embedding of `phone2geo.py`: the input validator, the three-stage
cascade (area code, exchange, pooled block) over the carrier-metadata
registry, and the boolean wrappers `has_us_area_code` and
`is_potentially_valid_number`.  The registry (a read-only SQLite database in
the source) is modelled as three lookup functions keyed exactly as the
source's queries key them.  Strings are ASCII; Python's `\W` (non-word) and
`\d` (digit) character classes are modelled by their ASCII meanings.
-/

deriving instance DecidableEq for Except

namespace Phone2Geo

/-- The `MetadataRecord` class of `phone2geo.py`: an immutable record of resolved
knowledge about one number.  Optional fields are `Option String`. -/
structure MetadataRecord where
  phone_number : String
  country : Option String
  time_zone : Option String
  region : Option String
  rate_center : Option String
  operating_company_number : Option String
  carrier : Option String
deriving DecidableEq, Repr

/-- The error taxonomy of the cascade: `InvalidNumberError`,
`AreaCodeNotFoundError`, `InvalidAreaCodeError` (spec name:
`AreaCodeUnassignableError`) and `InvalidExchangeError` (spec name:
`ExchangeInvalidError`), with the payloads each carries in the source. -/
inductive LocateError where
  | invalidNumber : LocateError
  | areaCodeNotFound (area_code : String) : LocateError
  | invalidAreaCode (area_code : String) (explanation : String) : LocateError
  | invalidExchange (area_code : String) (exchange : String) : LocateError
deriving DecidableEq, Repr

/-- A row of the `npa` table, with the columns `__fetch_npa_metadata`
reads.  SQLite returns each column as a (possibly empty) string. -/
structure NpaEntry where
  ASSIGNABLE : String
  IN_SERVICE : String
  ASSIGNED : String
  COUNTRY : String
  TIME_ZONE : String
  LOCATION : String
  EXPLANATION : String
deriving DecidableEq, Repr

/-- A row of the `npa_nxx` table, with the columns `__fetch_nxx_metadata`
reads. -/
structure NxxEntry where
  Use : String
  State : String
  RateCenter : String
  OCN : String
  Company : String
deriving DecidableEq, Repr

/-- A row of the `blocks` table, with the columns `__fetch_block_metadata`
reads. -/
structure BlockEntry where
  State : String
  Rate_Center : String
  OCN : String
  Assigned_To : String
deriving DecidableEq, Repr

/-- The read-only registry: the three tables of `carrier_meta.sqlite3`,
each modelled as a lookup by its primary key.  `npa` is keyed by the 3-digit
area code (`NPA_ID`), `npa_nxx` by the composite string `"AAA-XXX"`
(`NPA_NXX`), and `blocks` by the (NPA, NXX, X) triple. -/
structure Database where
  npa : String → Option NpaEntry
  npa_nxx : String → Option NxxEntry
  blocks : String → String → String → Option BlockEntry

/-- Python string slicing `s[start:start+len]`. -/
def strSlice (start len : Nat) (s : String) : String :=
  ((s.data.drop start).take len).asString

/-- A word character in the ASCII reading of Python's `\w`:
a letter, a digit, or an underscore. -/
def isWordChar (c : Char) : Bool :=
  c.isAlphanum || c == '_'

/-- Embeds `re.sub(r'\W', '', number)`: remove every non-word character. -/
def stripNonWord (s : String) : String :=
  (s.data.filter isWordChar).asString

/-- The character class `[2-9]`. -/
def leadDigit (c : Char) : Bool :=
  '2' ≤ c && c ≤ '9'

/-- Embeds `PHONE_NUMBER_PATTERN = re.compile(r"^[2-9]\d{9}$")`: one leading digit
in 2–9 followed by exactly nine digits. -/
def matchesPhonePattern (s : String) : Bool :=
  match s.data with
  | [] => false
  | c :: rest => leadDigit c && rest.length == 9 && rest.all Char.isDigit

/-- Embeds `__MetadataRepository.__fetch_npa_metadata`: look up the first three
digits in the `npa` table; absent entry, `ASSIGNABLE == 'No'`, and
`IN_SERVICE == 'N' or ASSIGNED == 'No'` each raise; otherwise build a record
whose country, time zone and region map empty-string columns to `none`. -/
def fetch_npa_metadata (db : Database) (number : String) :
    Except LocateError MetadataRecord :=
  let area_code := strSlice 0 3 number
  match db.npa area_code with
  | none => Except.error (LocateError.areaCodeNotFound area_code)
  | some npa_data =>
    if npa_data.ASSIGNABLE = "No" then
      Except.error (LocateError.invalidAreaCode area_code npa_data.EXPLANATION)
    else if npa_data.IN_SERVICE = "N" || npa_data.ASSIGNED = "No" then
      Except.error (LocateError.invalidAreaCode area_code "Area code not in service")
    else
      Except.ok {
        phone_number := number
        country := if npa_data.COUNTRY ≠ "" then some npa_data.COUNTRY else none
        time_zone := if npa_data.TIME_ZONE ≠ "" then some npa_data.TIME_ZONE else none
        region := if npa_data.LOCATION ≠ "" then some npa_data.LOCATION else none
        rate_center := none
        operating_company_number := none
        carrier := none
      }

/-- Embeds `__MetadataRepository.__fetch_nxx_metadata`: look up `"AAA-XXX"` in the
`npa_nxx` table; an absent entry or one whose `Use` column is `'UA'` raises
`InvalidExchangeError`; otherwise rebuild the record with region, rate
center, OCN and carrier taken verbatim from the entry. -/
def fetch_nxx_metadata (db : Database) (metadata : MetadataRecord) :
    Except LocateError MetadataRecord :=
  let area_code := strSlice 0 3 metadata.phone_number
  let exchange := strSlice 3 3 metadata.phone_number
  match db.npa_nxx (area_code ++ "-" ++ exchange) with
  | none => Except.error (LocateError.invalidExchange area_code exchange)
  | some nxx_data =>
    if nxx_data.Use = "UA" then
      Except.error (LocateError.invalidExchange area_code exchange)
    else
      Except.ok {
        phone_number := metadata.phone_number
        country := metadata.country
        time_zone := metadata.time_zone
        region := some nxx_data.State
        rate_center := some nxx_data.RateCenter
        operating_company_number := some nxx_data.OCN
        carrier := some nxx_data.Company
      }

/-- Embeds `__MetadataRepository.__fetch_block_metadata`: look up the
(area code, exchange, block digit) triple in the `blocks` table; an absent
entry returns the input record unchanged, a present entry overrides region,
rate center, OCN and carrier.  Every path returns `Except.ok`. -/
def fetch_block_metadata (db : Database) (metadata : MetadataRecord) :
    Except LocateError MetadataRecord :=
  match db.blocks (strSlice 0 3 metadata.phone_number)
      (strSlice 3 3 metadata.phone_number)
      (strSlice 6 1 metadata.phone_number) with
  | none => Except.ok metadata
  | some block_record =>
    Except.ok {
      phone_number := metadata.phone_number
      country := metadata.country
      time_zone := metadata.time_zone
      region := some block_record.State
      rate_center := some block_record.Rate_Center
      operating_company_number := some block_record.OCN
      carrier := some block_record.Assigned_To
    }

/-- Embeds `__MetadataRepository.locate_number`: strip non-word characters,
validate against `PHONE_NUMBER_PATTERN`, then run the cascade, returning the
area-code record as-is whenever its country differs from `'US'`. -/
def locate_number (db : Database) (number : String) :
    Except LocateError MetadataRecord :=
  let number := stripNonWord number
  if matchesPhonePattern number = false then
    Except.error LocateError.invalidNumber
  else
    match fetch_npa_metadata db number with
    | Except.error e => Except.error e
    | Except.ok npa_record =>
      if npa_record.country ≠ some "US" then
        Except.ok npa_record
      else
        match fetch_nxx_metadata db npa_record with
        | Except.error e => Except.error e
        | Except.ok nxx_record => fetch_block_metadata db nxx_record

/-- Embeds `__MetadataRepository.has_us_area_code`: `locate_number(number).country
in ('US', None)`, with `InvalidExchangeError` caught as `True` and every
other error caught as `False`. -/
def has_us_area_code (db : Database) (number : String) : Bool :=
  match locate_number db number with
  | Except.ok record => record.country = some "US" || record.country = none
  | Except.error (LocateError.invalidExchange _ _) => true
  | Except.error _ => false

/-- Embeds `__MetadataRepository.is_potentially_valid_number`: whether
`locate_number` completes without raising. -/
def is_potentially_valid_number (db : Database) (number : String) : Bool :=
  match locate_number db number with
  | Except.ok _ => true
  | Except.error _ => false

/-- The spec's own wording of the validator's preprocessing ("strip all
non-digit characters"), kept separate from the source's `stripNonWord` so
the two can be compared. -/
def spec_stripNonDigits (s : String) : String :=
  (s.data.filter Char.isDigit).asString

/-! ## Concrete registries for witnesses and counterexamples -/

/-- A normal US area-code entry (modelled on NANPA's row for 212). -/
def npa212 : NpaEntry :=
  { ASSIGNABLE := "Yes", IN_SERVICE := "Y", ASSIGNED := "Yes",
    COUNTRY := "US", TIME_ZONE := "E", LOCATION := "NY", EXPLANATION := "" }

/-- A Canadian area-code entry (modelled on NANPA's row for 905). -/
def npa905 : NpaEntry :=
  { ASSIGNABLE := "Yes", IN_SERVICE := "Y", ASSIGNED := "Yes",
    COUNTRY := "CANADA", TIME_ZONE := "E", LOCATION := "ON", EXPLANATION := "" }

/-- An unassignable area-code entry (modelled on NANPA's row for 911). -/
def npa911 : NpaEntry :=
  { ASSIGNABLE := "No", IN_SERVICE := "N", ASSIGNED := "No",
    COUNTRY := "", TIME_ZONE := "", LOCATION := "",
    EXPLANATION := "N11 code" }

/-- An in-service exchange entry for 212-867. -/
def nxx212867 : NxxEntry :=
  { Use := "AS", State := "NY", RateCenter := "NWYRCYZN01",
    OCN := "9136", Company := "Verizon" }

/-- An exchange entry whose columns are all empty strings, to probe the
empty-string handling of the exchange stage. -/
def nxxBlank : NxxEntry :=
  { Use := "AS", State := "", RateCenter := "", OCN := "", Company := "" }

/-- A pooled-block entry for 212-867-5. -/
def block2128675 : BlockEntry :=
  { State := "NY", Rate_Center := "NWYRCYZN02", OCN := "710A",
    Assigned_To := "T-Mobile" }

/-- A registry with a US and a Canadian area code, one exchange and one
pooled block, used to exercise every stage of the cascade. -/
def sampleDb : Database :=
  { npa := fun k =>
      if k = "212" then some npa212
      else if k = "905" then some npa905
      else if k = "911" then some npa911
      else none
    npa_nxx := fun k =>
      if k = "212-867" then some nxx212867 else none
    blocks := fun a x b =>
      if a = "212" then if x = "867" then if b = "5" then some block2128675
      else none else none else none }

/-- A registry whose only exchange entry has empty-string data columns. -/
def blankNxxDb : Database :=
  { npa := fun k => if k = "212" then some npa212 else none
    npa_nxx := fun k => if k = "212-867" then some nxxBlank else none
    blocks := fun _ _ _ => none }

/-- The empty registry. -/
def emptyDb : Database :=
  { npa := fun _ => none, npa_nxx := fun _ => none,
    blocks := fun _ _ _ => none }

example : locate_number sampleDb "2128675309" =
    Except.ok ⟨"2128675309", some "US", some "E", some "NY",
      some "NWYRCYZN02", some "710A", some "T-Mobile"⟩ := by decide

example : locate_number sampleDb "(212) 867-4310" =
    Except.ok ⟨"2128674310", some "US", some "E", some "NY",
      some "NWYRCYZN01", some "9136", some "Verizon"⟩ := by decide

example : locate_number sampleDb "9058675309" =
    Except.ok ⟨"9058675309", some "CANADA", some "E", some "ON",
      none, none, none⟩ := by decide

example : locate_number sampleDb "9115555555" =
    Except.error (LocateError.invalidAreaCode "911" "N11 code") := by decide

example : locate_number sampleDb "2129115555" =
    Except.error (LocateError.invalidExchange "212" "911") := by decide

example : locate_number sampleDb "1555555555" =
    Except.error LocateError.invalidNumber := by decide

example : locate_number sampleDb "2128675309a" =
    Except.error LocateError.invalidNumber := by decide

example : has_us_area_code sampleDb "2129115555" = true := by decide
example : has_us_area_code sampleDb "9058675309" = false := by decide
example : has_us_area_code sampleDb "9115555555" = false := by decide
example : is_potentially_valid_number sampleDb "2128675309" = true := by decide
example : is_potentially_valid_number sampleDb "2129115555" = false := by decide

/-! ## Stage-shape lemmas -/

/-- The area-code stage can only fail with `AreaCodeNotFoundError` or
`InvalidAreaCodeError`. -/
lemma fetch_npa_metadata_error_shape (db : Database) (n : String)
    (e : LocateError) (h : fetch_npa_metadata db n = Except.error e) :
    (∃ a, e = LocateError.areaCodeNotFound a) ∨
    (∃ a ex, e = LocateError.invalidAreaCode a ex) := by
  simp only [fetch_npa_metadata] at h
  split at h
  · simp only [Except.error.injEq] at h
    exact Or.inl ⟨_, h.symm⟩
  · split at h
    · simp only [Except.error.injEq] at h
      exact Or.inr ⟨_, _, h.symm⟩
    · split at h
      · simp only [Except.error.injEq] at h
        exact Or.inr ⟨_, _, h.symm⟩
      · exact absurd h (by simp)

/-- On success the area-code stage returns exactly the record built from the
entry, with empty-string columns mapped to `none` and the three
carrier-level fields unset. -/
lemma fetch_npa_metadata_ok_shape (db : Database) (n : String)
    (r : MetadataRecord) (h : fetch_npa_metadata db n = Except.ok r) :
    ∃ d, db.npa (strSlice 0 3 n) = some d ∧
      d.ASSIGNABLE ≠ "No" ∧ d.IN_SERVICE ≠ "N" ∧ d.ASSIGNED ≠ "No" ∧
      r = ⟨n, if d.COUNTRY ≠ "" then some d.COUNTRY else none,
          if d.TIME_ZONE ≠ "" then some d.TIME_ZONE else none,
          if d.LOCATION ≠ "" then some d.LOCATION else none,
          none, none, none⟩ := by
  simp only [fetch_npa_metadata] at h
  split at h
  · exact absurd h (by simp)
  · rename_i d hd
    split at h
    · exact absurd h (by simp)
    · rename_i h1
      split at h
      · exact absurd h (by simp)
      · rename_i h2
        simp only [Bool.or_eq_true, decide_eq_true_eq, not_or] at h2
        simp only [Except.ok.injEq] at h
        exact ⟨d, hd, h1, h2.1, h2.2, h.symm⟩

/-- The area-code stage never fails with `InvalidNumberError` or
`InvalidExchangeError`. -/
lemma fetch_npa_metadata_ne_invalidNumber (db : Database) (n : String) :
    fetch_npa_metadata db n ≠ Except.error LocateError.invalidNumber := by
  intro h
  rcases fetch_npa_metadata_error_shape db n _ h with ⟨a, ha⟩ | ⟨a, ex, ha⟩ <;>
    exact absurd ha (by simp)

/-- The exchange stage can only fail with `InvalidExchangeError`, carrying
the area code and exchange of the record's number. -/
lemma fetch_nxx_metadata_error_shape (db : Database) (m : MetadataRecord)
    (e : LocateError) (h : fetch_nxx_metadata db m = Except.error e) :
    e = LocateError.invalidExchange (strSlice 0 3 m.phone_number)
      (strSlice 3 3 m.phone_number) := by
  simp only [fetch_nxx_metadata] at h
  split at h
  · simp only [Except.error.injEq] at h
    exact h.symm
  · split at h
    · simp only [Except.error.injEq] at h
      exact h.symm
    · exact absurd h (by simp)

/-- On success the exchange stage rebuilds the record with region, rate
center, OCN and carrier taken verbatim (as present fields) from the entry
and the other fields unchanged. -/
lemma fetch_nxx_metadata_ok_shape (db : Database) (m : MetadataRecord)
    (r : MetadataRecord) (h : fetch_nxx_metadata db m = Except.ok r) :
    ∃ d, db.npa_nxx (strSlice 0 3 m.phone_number ++ "-" ++
        strSlice 3 3 m.phone_number) = some d ∧ d.Use ≠ "UA" ∧
      r = ⟨m.phone_number, m.country, m.time_zone, some d.State,
          some d.RateCenter, some d.OCN, some d.Company⟩ := by
  simp only [fetch_nxx_metadata] at h
  split at h
  · exact absurd h (by simp)
  · rename_i d hd
    split at h
    · exact absurd h (by simp)
    · rename_i h1
      simp only [Except.ok.injEq] at h
      exact ⟨d, hd, h1, h.symm⟩

/-- The block stage never fails: it returns either the input record (no
block entry) or the record with the four carrier-level fields overridden. -/
lemma fetch_block_metadata_shape (db : Database) (m : MetadataRecord) :
    (db.blocks (strSlice 0 3 m.phone_number) (strSlice 3 3 m.phone_number)
        (strSlice 6 1 m.phone_number) = none ∧
      fetch_block_metadata db m = Except.ok m) ∨
    (∃ bl, db.blocks (strSlice 0 3 m.phone_number)
        (strSlice 3 3 m.phone_number) (strSlice 6 1 m.phone_number) =
          some bl ∧
      fetch_block_metadata db m = Except.ok
        ⟨m.phone_number, m.country, m.time_zone, some bl.State,
          some bl.Rate_Center, some bl.OCN, some bl.Assigned_To⟩) := by
  simp only [fetch_block_metadata]
  cases hd : db.blocks (strSlice 0 3 m.phone_number)
      (strSlice 3 3 m.phone_number) (strSlice 6 1 m.phone_number) with
  | none => exact Or.inl ⟨rfl, rfl⟩
  | some bl => exact Or.inr ⟨bl, rfl, rfl⟩

/-- Unfolding equation for `locate_number`. -/
lemma locate_number_eq (db : Database) (n : String) :
    locate_number db n =
      (if matchesPhonePattern (stripNonWord n) = false then
        Except.error LocateError.invalidNumber
      else
        match fetch_npa_metadata db (stripNonWord n) with
        | Except.error e => Except.error e
        | Except.ok npa_record =>
          if npa_record.country ≠ some "US" then
            Except.ok npa_record
          else
            match fetch_nxx_metadata db npa_record with
            | Except.error e => Except.error e
            | Except.ok nxx_record => fetch_block_metadata db nxx_record) :=
  rfl

/-- The function `locate_number` fails with `InvalidNumberError` exactly when the
stripped input fails the pattern. -/
lemma locate_number_invalidNumber_iff (db : Database) (n : String) :
    locate_number db n = Except.error LocateError.invalidNumber ↔
      matchesPhonePattern (stripNonWord n) = false := by
  constructor
  · intro h
    by_contra hv
    rw [locate_number_eq, if_neg hv] at h
    split at h
    · rename_i e he
      simp only [Except.error.injEq] at h
      subst h
      exact fetch_npa_metadata_ne_invalidNumber db _ he
    · rename_i r1 h1
      split at h
      · simp at h
      · split at h
        · rename_i e he
          simp only [Except.error.injEq] at h
          subst h
          have hs := fetch_nxx_metadata_error_shape db r1 _ he
          simp at hs
        · rename_i r2 h2
          rcases fetch_block_metadata_shape db r2 with ⟨_, hb⟩ | ⟨bl, _, hb⟩ <;>
            rw [hb] at h <;> simp at h
  · intro hv
    rw [locate_number_eq, if_pos hv]

/-! ## The claims -/

/-- C9: for every registry and input string,
`is_potentially_valid_number` returns true if and only if `locate_number`
on the same input against the same registry completes without raising any
error. -/
theorem C9_is_potentially_valid_iff_locate_succeeds (db : Database)
    (n : String) :
    is_potentially_valid_number db n = true ↔
      ∃ r, locate_number db n = Except.ok r := by
  unfold is_potentially_valid_number
  cases h : locate_number db n <;> simp

/-- Witness for C9 at a concrete registry and input. -/
theorem C9_witness :
    is_potentially_valid_number sampleDb "2128675309" = true ↔
      ∃ r, locate_number sampleDb "2128675309" = Except.ok r :=
  C9_is_potentially_valid_iff_locate_succeeds sampleDb "2128675309"

/-- C2 counterexample: `"2128675309a"` strips, under the spec's
"remove all non-digit characters" reading, to a string that matches the
10-digit pattern, yet `locate_number` raises `InvalidNumberError` on it
(the source strips only `\W`, i.e. non-word characters, so the letter
survives and the pattern fails). -/
theorem C2_counterexample :
    matchesPhonePattern (spec_stripNonDigits "2128675309a") = true ∧
    locate_number sampleDb "2128675309a" =
      Except.error LocateError.invalidNumber := by decide

/-- C2 amended: `locate_number` first strips all non-word characters
(everything but letters, digits and underscore) from the input, raises
`InvalidNumberError` iff the stripped result is not 10 digits with leading
digit 2–9, and this validation consults no registry (its outcome is
identical for every registry). -/
theorem C2_strip_and_validate (db : Database) (n : String) :
    (locate_number db n = Except.error LocateError.invalidNumber ↔
      matchesPhonePattern (stripNonWord n) = false) ∧
    ∀ db2 : Database,
      (locate_number db n = Except.error LocateError.invalidNumber ↔
        locate_number db2 n = Except.error LocateError.invalidNumber) := by
  refine ⟨locate_number_invalidNumber_iff db n, fun db2 => ?_⟩
  rw [locate_number_invalidNumber_iff db n,
    locate_number_invalidNumber_iff db2 n]

/-- Witness for C2 at a concrete registry and input. -/
theorem C2_witness :
    (locate_number sampleDb "212-867-530" =
        Except.error LocateError.invalidNumber ↔
      matchesPhonePattern (stripNonWord "212-867-530") = false) ∧
    ∀ db2 : Database,
      (locate_number sampleDb "212-867-530" =
          Except.error LocateError.invalidNumber ↔
        locate_number db2 "212-867-530" =
          Except.error LocateError.invalidNumber) :=
  C2_strip_and_validate sampleDb "212-867-530"

/-- The boolean `has_us_area_code` assigns to a cascade failure: true for
`InvalidExchangeError`, false for every other error. -/
def errorCountsAsUS : LocateError → Bool
  | LocateError.invalidExchange _ _ => true
  | _ => false

/-- C10: the boolean wrappers are total: whenever the cascade fails, with
any error value whatsoever, `is_potentially_valid_number` converts the
failure to `false` and `has_us_area_code` converts it to `true` exactly for
`InvalidExchangeError` and to `false` for everything else. -/
theorem C10_wrappers_total_on_errors (db : Database) (n : String)
    (e : LocateError) (h : locate_number db n = Except.error e) :
    is_potentially_valid_number db n = false ∧
    has_us_area_code db n = errorCountsAsUS e := by
  unfold is_potentially_valid_number has_us_area_code
  rw [h]
  cases e <;> simp [errorCountsAsUS]

/-- Witness for C10 at a concrete registry and input. -/
theorem C10_witness :
    locate_number sampleDb "9115555555" =
      Except.error (LocateError.invalidAreaCode "911" "N11 code") ∧
    (is_potentially_valid_number sampleDb "9115555555" = false ∧
      has_us_area_code sampleDb "9115555555" =
        errorCountsAsUS (LocateError.invalidAreaCode "911" "N11 code")) :=
  ⟨by decide,
    C10_wrappers_total_on_errors sampleDb "9115555555"
      (LocateError.invalidAreaCode "911" "N11 code") (by decide)⟩

/-- C3 counterexample: in a registry whose exchange entry for 212-867 has
empty-string data columns, `locate_number` succeeds with the empty strings
as present field values (`some ""`), not as absent fields — the
empty-string-to-absent mapping is applied only at the area-code stage. -/
theorem C3_counterexample :
    nxxBlank.State = "" ∧ nxxBlank.RateCenter = "" ∧
    locate_number blankNxxDb "2128674309" = Except.ok
      ⟨"2128674309", some "US", some "E", some "", some "", some "",
        some ""⟩ := by decide

/-- C3 amended: only the area-code stage maps empty-string registry columns
to absent fields (its present fields are never the empty string); the
exchange and block stages copy the entry's columns verbatim into present
fields, so an empty-string column there yields a present empty-string
value. -/
theorem C3_empty_columns_absent_only_at_npa_stage :
    (∀ (db : Database) (n : String) (r : MetadataRecord),
      fetch_npa_metadata db n = Except.ok r →
      r.country ≠ some "" ∧ r.time_zone ≠ some "" ∧ r.region ≠ some "") ∧
    (∀ (db : Database) (m : MetadataRecord) (d : NxxEntry),
      db.npa_nxx (strSlice 0 3 m.phone_number ++ "-" ++
        strSlice 3 3 m.phone_number) = some d → d.Use ≠ "UA" →
      fetch_nxx_metadata db m = Except.ok
        ⟨m.phone_number, m.country, m.time_zone, some d.State,
          some d.RateCenter, some d.OCN, some d.Company⟩) ∧
    (∀ (db : Database) (m : MetadataRecord) (bl : BlockEntry),
      db.blocks (strSlice 0 3 m.phone_number) (strSlice 3 3 m.phone_number)
        (strSlice 6 1 m.phone_number) = some bl →
      fetch_block_metadata db m = Except.ok
        ⟨m.phone_number, m.country, m.time_zone, some bl.State,
          some bl.Rate_Center, some bl.OCN, some bl.Assigned_To⟩) := by
  refine ⟨?_, ?_, ?_⟩
  · intro db n r h
    obtain ⟨d, _, _, _, _, hr⟩ := fetch_npa_metadata_ok_shape db n r h
    subst hr
    refine ⟨?_, ?_, ?_⟩ <;> dsimp only <;> split <;> simp_all
  · intro db m d hd hu
    simp only [fetch_nxx_metadata]
    rw [hd]
    simp [hu]
  · intro db m bl hd
    simp only [fetch_block_metadata]
    rw [hd]

/-- Witness for C3 (amended) at a concrete registry: the exchange stage
turns the all-empty entry into present empty-string fields. -/
theorem C3_witness :
    fetch_nxx_metadata blankNxxDb
      ⟨"2128674309", some "US", some "E", some "NY", none, none, none⟩ =
    Except.ok ⟨"2128674309", some "US", some "E", some "", some "",
      some "", some ""⟩ :=
  C3_empty_columns_absent_only_at_npa_stage.2.1 blankNxxDb
    ⟨"2128674309", some "US", some "E", some "NY", none, none, none⟩
    nxxBlank (by decide) (by decide)

/-- The claim C4 makes about the area-code stage, as one proposition over a
registry and a number: the not-found, not-assignable, not-in-service /
not-assigned and success cases. -/
def npa_stage_cases (db : Database) (n : String) : Prop :=
  (db.npa (strSlice 0 3 n) = none →
    fetch_npa_metadata db n =
      Except.error (LocateError.areaCodeNotFound (strSlice 0 3 n))) ∧
  (∀ d, db.npa (strSlice 0 3 n) = some d → d.ASSIGNABLE = "No" →
    fetch_npa_metadata db n =
      Except.error (LocateError.invalidAreaCode (strSlice 0 3 n)
        d.EXPLANATION)) ∧
  (∀ d, db.npa (strSlice 0 3 n) = some d → d.ASSIGNABLE ≠ "No" →
    (d.IN_SERVICE = "N" ∨ d.ASSIGNED = "No") →
    fetch_npa_metadata db n =
      Except.error (LocateError.invalidAreaCode (strSlice 0 3 n)
        "Area code not in service")) ∧
  (∀ d, db.npa (strSlice 0 3 n) = some d → d.ASSIGNABLE ≠ "No" →
    d.IN_SERVICE ≠ "N" → d.ASSIGNED ≠ "No" →
    fetch_npa_metadata db n = Except.ok
      ⟨n, if d.COUNTRY ≠ "" then some d.COUNTRY else none,
        if d.TIME_ZONE ≠ "" then some d.TIME_ZONE else none,
        if d.LOCATION ≠ "" then some d.LOCATION else none,
        none, none, none⟩)

/-- C4: for every validated 10-digit number the area-code stage looks up
the first three digits and raises `AreaCodeNotFoundError` when no entry
exists, `InvalidAreaCodeError` with the entry's explanation when marked not
assignable, `InvalidAreaCodeError` with the generic "not in service"
explanation when marked not in service or not assigned, and otherwise
returns the record with country, time zone and region from the entry and
the carrier-level fields unset. -/
theorem C4_area_code_stage (db : Database) (n : String)
    (_hv : matchesPhonePattern n = true) : npa_stage_cases db n := by
  refine ⟨?_, ?_, ?_, ?_⟩
  · intro hd
    simp only [fetch_npa_metadata]
    rw [hd]
  · intro d hd h1
    simp only [fetch_npa_metadata]
    rw [hd]
    simp [h1]
  · intro d hd h1 h2
    simp only [fetch_npa_metadata]
    rw [hd]
    rcases h2 with h2 | h2 <;> simp [h1, h2]
  · intro d hd h1 h2 h3
    simp only [fetch_npa_metadata]
    rw [hd]
    simp [h1, h2, h3]

/-- Witness for C4 at a concrete registry and number. -/
theorem C4_witness :
    matchesPhonePattern "9115555555" = true ∧
    npa_stage_cases sampleDb "9115555555" :=
  ⟨by decide, C4_area_code_stage sampleDb "9115555555" (by decide)⟩

/-- The claim C5 makes about the exchange stage, as one proposition: the
stage raises `InvalidExchangeError` iff the pair is absent or marked `UA`,
and otherwise rebuilds the record from the entry with phone number, country
and time zone unchanged. -/
def nxx_stage_cases (db : Database) (m : MetadataRecord) : Prop :=
  (fetch_nxx_metadata db m =
      Except.error (LocateError.invalidExchange
        (strSlice 0 3 m.phone_number) (strSlice 3 3 m.phone_number)) ↔
    (db.npa_nxx (strSlice 0 3 m.phone_number ++ "-" ++
        strSlice 3 3 m.phone_number) = none ∨
      ∃ d, db.npa_nxx (strSlice 0 3 m.phone_number ++ "-" ++
        strSlice 3 3 m.phone_number) = some d ∧ d.Use = "UA")) ∧
  (∀ d, db.npa_nxx (strSlice 0 3 m.phone_number ++ "-" ++
      strSlice 3 3 m.phone_number) = some d → d.Use ≠ "UA" →
    fetch_nxx_metadata db m = Except.ok
      ⟨m.phone_number, m.country, m.time_zone, some d.State,
        some d.RateCenter, some d.OCN, some d.Company⟩)

/-- C5: for every record that reaches the exchange stage (country is the
home country), the stage raises `InvalidExchangeError` carrying the area
code and exchange iff the pair is absent from the exchange registry or its
usage classification is `'UA'`, and otherwise returns the record rebuilt
from the entry with phone number, country and time zone unchanged. -/
theorem C5_exchange_stage (db : Database) (m : MetadataRecord)
    (_hc : m.country = some "US") : nxx_stage_cases db m := by
  constructor
  · constructor
    · intro h
      simp only [fetch_nxx_metadata] at h
      split at h
      · rename_i hd
        exact Or.inl hd
      · rename_i d hd
        split at h
        · rename_i hu
          exact Or.inr ⟨d, hd, hu⟩
        · exact absurd h (by simp)
    · intro h
      rcases h with hd | ⟨d, hd, hu⟩
      · simp only [fetch_nxx_metadata]
        rw [hd]
      · simp only [fetch_nxx_metadata]
        rw [hd]
        simp [hu]
  · intro d hd hu
    simp only [fetch_nxx_metadata]
    rw [hd]
    simp [hu]

/-- Witness for C5 at a concrete registry and record. -/
theorem C5_witness :
    (⟨"2129115555", some "US", some "E", some "NY", none, none, none⟩ :
        MetadataRecord).country = some "US" ∧
    nxx_stage_cases sampleDb
      ⟨"2129115555", some "US", some "E", some "NY", none, none, none⟩ :=
  ⟨by decide, C5_exchange_stage sampleDb
    ⟨"2129115555", some "US", some "E", some "NY", none, none, none⟩
    (by decide)⟩

/-- The claim C6 makes about the block-override stage, as one proposition:
the stage never fails, returns the record unchanged when no block entry
exists, and otherwise overrides exactly region, rate center, OCN and
carrier with the entry's values. -/
def block_stage_cases (db : Database) (m : MetadataRecord) : Prop :=
  (∃ r, fetch_block_metadata db m = Except.ok r) ∧
  (db.blocks (strSlice 0 3 m.phone_number) (strSlice 3 3 m.phone_number)
      (strSlice 6 1 m.phone_number) = none →
    fetch_block_metadata db m = Except.ok m) ∧
  (∀ bl, db.blocks (strSlice 0 3 m.phone_number)
      (strSlice 3 3 m.phone_number) (strSlice 6 1 m.phone_number) =
        some bl →
    fetch_block_metadata db m = Except.ok
      ⟨m.phone_number, m.country, m.time_zone, some bl.State,
        some bl.Rate_Center, some bl.OCN, some bl.Assigned_To⟩)

/-- C6: for every record that passes exchange resolution the block-override
stage never raises; an absent (area code, exchange, block digit) entry
returns the record unchanged, and a present entry replaces exactly region,
rate center, OCN and carrier while phone number, country and time zone are
unchanged. -/
theorem C6_block_stage (db : Database) (m : MetadataRecord) :
    block_stage_cases db m := by
  refine ⟨?_, ?_, ?_⟩
  · rcases fetch_block_metadata_shape db m with ⟨_, hb⟩ | ⟨bl, _, hb⟩
    · exact ⟨m, hb⟩
    · exact ⟨_, hb⟩
  · intro hd
    simp only [fetch_block_metadata]
    rw [hd]
  · intro bl hd
    simp only [fetch_block_metadata]
    rw [hd]

/-- Witness for C6 at a concrete registry and record. -/
theorem C6_witness :
    block_stage_cases sampleDb
      ⟨"2128675309", some "US", some "E", some "NY", some "NWYRCYZN01",
        some "9136", some "Verizon"⟩ :=
  C6_block_stage sampleDb
    ⟨"2128675309", some "US", some "E", some "NY", some "NWYRCYZN01",
      some "9136", some "Verizon"⟩

/-- The area-code stage reads only the `npa` table: registries agreeing on
`npa` give it identical results. -/
lemma fetch_npa_metadata_congr (db db2 : Database) (n : String)
    (h : db2.npa = db.npa) :
    fetch_npa_metadata db2 n = fetch_npa_metadata db n := by
  simp only [fetch_npa_metadata, h]

/-- The record produced for a non-US number by the country short-circuit. -/
def canadaRec : MetadataRecord :=
  ⟨"9058675309", some "CANADA", some "E", some "ON", none, none, none⟩

/-- C7: whenever the area-code stage resolves with a country other than
`'US'`, `locate_number` returns that record exactly as produced — its
rate center, OCN and carrier are absent — and the exchange and block
registries are never consulted: any registry with the same `npa` table
gives the same result. -/
theorem C7_country_short_circuit (db : Database) (n : String)
    (r : MetadataRecord)
    (hm : matchesPhonePattern (stripNonWord n) = true)
    (h : fetch_npa_metadata db (stripNonWord n) = Except.ok r)
    (hc : r.country ≠ some "US") :
    locate_number db n = Except.ok r ∧
    r.rate_center = none ∧ r.operating_company_number = none ∧
    r.carrier = none ∧
    ∀ db2 : Database, db2.npa = db.npa →
      locate_number db2 n = Except.ok r := by
  have hloc : ∀ db2 : Database, db2.npa = db.npa →
      locate_number db2 n = Except.ok r := by
    intro db2 h2
    rw [locate_number_eq, if_neg (by simp [hm]),
      fetch_npa_metadata_congr db db2 _ h2, h]
    simp [hc]
  obtain ⟨d, _, _, _, _, hr⟩ := fetch_npa_metadata_ok_shape db _ r h
  exact ⟨hloc db rfl, by rw [hr], by rw [hr], by rw [hr], hloc⟩

/-- Witness for C7 at a concrete registry and a Canadian number. -/
theorem C7_witness :
    matchesPhonePattern (stripNonWord "9058675309") = true ∧
    fetch_npa_metadata sampleDb (stripNonWord "9058675309") =
      Except.ok canadaRec ∧
    canadaRec.country ≠ some "US" ∧
    (locate_number sampleDb "9058675309" = Except.ok canadaRec ∧
      canadaRec.rate_center = none ∧
      canadaRec.operating_company_number = none ∧
      canadaRec.carrier = none ∧
      ∀ db2 : Database, db2.npa = sampleDb.npa →
        locate_number db2 "9058675309" = Except.ok canadaRec) :=
  ⟨by decide, by decide, by decide,
    C7_country_short_circuit sampleDb "9058675309" canadaRec
      (by decide) (by decide) (by decide)⟩

/-- The claim C1 makes about `has_us_area_code`, as one proposition over a
registry and an input: `InvalidExchangeError` is a positive result, a
resolved country of `'US'` or absent is positive, and every other error or
resolved country is negative. -/
def has_us_policy (db : Database) (n : String) : Prop :=
  ((∃ a x, locate_number db n =
      Except.error (LocateError.invalidExchange a x)) →
    has_us_area_code db n = true) ∧
  (∀ r, locate_number db n = Except.ok r →
    (has_us_area_code db n = true ↔
      (r.country = some "US" ∨ r.country = none))) ∧
  (∀ e, locate_number db n = Except.error e →
    (∀ a x, e ≠ LocateError.invalidExchange a x) →
    has_us_area_code db n = false)

/-- C1: for every registry and input string, `has_us_area_code` returns
true when `locate_number` raises `InvalidExchangeError`, returns true on
success exactly when the record's country is `'US'` or absent, and returns
false for every other error. -/
theorem C1_has_us_area_code_policy (db : Database) (n : String) :
    has_us_policy db n := by
  refine ⟨?_, ?_, ?_⟩
  · rintro ⟨a, x, h⟩
    unfold has_us_area_code
    rw [h]
  · intro r h
    unfold has_us_area_code
    rw [h]
    simp
  · intro e h hne
    unfold has_us_area_code
    rw [h]
    cases e with
    | invalidExchange a x => exact absurd rfl (hne a x)
    | invalidNumber => rfl
    | areaCodeNotFound a => rfl
    | invalidAreaCode a ex => rfl

/-- Witness for C1 at a concrete registry and input. -/
theorem C1_witness : has_us_policy sampleDb "2129115555" :=
  C1_has_us_area_code_policy sampleDb "2129115555"

/-- The claim C8 makes about a successful resolution: the final record's
fields originate from the most specific stage reached (block entry over
exchange entry over area-code entry), a present field is never cleared by
a later stage, and phone number, country and time zone always come from
the area-code stage. -/
def cascade_origin (db : Database) (n : String) (r : MetadataRecord) :
    Prop :=
  ∃ r1, fetch_npa_metadata db (stripNonWord n) = Except.ok r1 ∧
    r.phone_number = r1.phone_number ∧
    r.country = r1.country ∧
    r.time_zone = r1.time_zone ∧
    (r1.region.isSome → r.region.isSome) ∧
    (r1.rate_center.isSome → r.rate_center.isSome) ∧
    (r1.operating_company_number.isSome →
      r.operating_company_number.isSome) ∧
    (r1.carrier.isSome → r.carrier.isSome) ∧
    ((r1.country ≠ some "US" ∧ r = r1) ∨
      (r1.country = some "US" ∧
        ∃ r2, fetch_nxx_metadata db r1 = Except.ok r2 ∧
          (r2.region.isSome ∧ r2.rate_center.isSome ∧
            r2.operating_company_number.isSome ∧ r2.carrier.isSome) ∧
          ((db.blocks (strSlice 0 3 r2.phone_number)
              (strSlice 3 3 r2.phone_number)
              (strSlice 6 1 r2.phone_number) = none ∧ r = r2) ∨
            (∃ bl, db.blocks (strSlice 0 3 r2.phone_number)
                (strSlice 3 3 r2.phone_number)
                (strSlice 6 1 r2.phone_number) = some bl ∧
              r.region = some bl.State ∧
              r.rate_center = some bl.Rate_Center ∧
              r.operating_company_number = some bl.OCN ∧
              r.carrier = some bl.Assigned_To))))

/-- C8: on every successful `locate_number` call, each present field of the
final record originates from the most specific cascade stage that reached
it, no field set by a later stage reverts to an earlier stage's value, and
no field present after some stage is cleared to absent by a later one. -/
theorem C8_most_specific_stage (db : Database) (n : String)
    (r : MetadataRecord) (h : locate_number db n = Except.ok r) :
    cascade_origin db n r := by
  rw [locate_number_eq] at h
  by_cases hv : matchesPhonePattern (stripNonWord n) = false
  · rw [if_pos hv] at h
    simp at h
  · rw [if_neg hv] at h
    split at h
    · simp at h
    · rename_i r1 h1
      split at h
      · rename_i hc
        simp only [Except.ok.injEq] at h
        subst h
        exact ⟨r1, h1, rfl, rfl, rfl, fun a => a, fun a => a, fun a => a,
          fun a => a, Or.inl ⟨hc, rfl⟩⟩
      · rename_i hc
        have hcus : r1.country = some "US" := not_not.mp hc
        split at h
        · simp at h
        · rename_i r2 h2
          obtain ⟨d, hd, hu, hr2⟩ := fetch_nxx_metadata_ok_shape db r1 r2 h2
          have hsome : r2.region.isSome ∧ r2.rate_center.isSome ∧
              r2.operating_company_number.isSome ∧ r2.carrier.isSome := by
            rw [hr2]; exact ⟨rfl, rfl, rfl, rfl⟩
          rcases fetch_block_metadata_shape db r2 with ⟨hnone, hb⟩ |
            ⟨bl, hbl, hb⟩
          · have hrr : r2 = r := by
              have := hb.symm.trans h
              simpa using this
            subst hrr
            refine ⟨r1, h1, ?_, ?_, ?_, ?_, ?_, ?_, ?_,
              Or.inr ⟨hcus, r2, h2, hsome, Or.inl ⟨hnone, rfl⟩⟩⟩ <;>
              rw [hr2]
            · exact fun _ => rfl
            · exact fun _ => rfl
            · exact fun _ => rfl
            · exact fun _ => rfl
          · have hrr : r = ⟨r2.phone_number, r2.country, r2.time_zone,
                some bl.State, some bl.Rate_Center, some bl.OCN,
                some bl.Assigned_To⟩ := by
              have := hb.symm.trans h
              simpa using this.symm
            refine ⟨r1, h1, ?_, ?_, ?_, ?_, ?_, ?_, ?_,
              Or.inr ⟨hcus, r2, h2, hsome, Or.inr ⟨bl, hbl, ?_, ?_, ?_, ?_⟩⟩⟩ <;>
              rw [hrr] <;> try rw [hr2]
            all_goals first
              | rfl
              | exact fun _ => rfl

/-- Witness for C8 at a concrete registry and an input that exercises all
three stages including the block override. -/
theorem C8_witness :
    locate_number sampleDb "2128675309" = Except.ok
      ⟨"2128675309", some "US", some "E", some "NY", some "NWYRCYZN02",
        some "710A", some "T-Mobile"⟩ ∧
    cascade_origin sampleDb "2128675309"
      ⟨"2128675309", some "US", some "E", some "NY", some "NWYRCYZN02",
        some "710A", some "T-Mobile"⟩ :=
  ⟨by decide, C8_most_specific_stage sampleDb "2128675309"
    ⟨"2128675309", some "US", some "E", some "NY", some "NWYRCYZN02",
      some "710A", some "T-Mobile"⟩ (by decide)⟩

end Phone2Geo
